import Mathlib

/-!
Verification of the Reddit content-monitoring agent
(`heartdiseaseprediction/reddit_browser.py`).

The script is shallowly embedded as follows.

* Python strings are Lean `String`s; where a Python string operation does
  not reduce well through Lean's `String` API (`lower`, `strip`, slicing),
  it is re-implemented over the underlying character list (`String.data`),
  which is exactly Python's per-character semantics for the ASCII data the
  agent handles.
* The reply ledger file is modelled as its character-list content
  (`List Char`); `save_replied_post` appends `id + "\n"`, and
  `load_replied_posts` mirrors reading the file line by line, stripping
  each line and keeping the non-blank ones.
* The external collaborators (`get_web_content`, the Gemini call, the
  Reddit client) are modelled as oracles: a fetch oracle
  `String → Option String → Option String` (url and proxy to extracted
  text, `none` on failure), an LLM oracle `String → Option String`, and
  per-post fault flags for the Reddit reply call and the ledger append.
  `random.choice` is modelled by an index `pick` reduced modulo the list
  length.
* The orchestration loop `run_reddit_agent` is embedded as a state
  machine over `LoopState` that also emits a trace of observable
  `Event`s (reply attempts and outcomes, in-memory and durable ledger
  updates, the two sleeps, proxy switches), so that ordering and
  error-isolation properties can be stated about the trace.
  Response-text generation is modelled separately by
  `generate_agent_response`; it is proved total (it never raises), so it
  does not influence the loop's control flow.
-/

/- ## Python string primitives -/

/-- Python `s.lower()`, character by character (`str.lower` maps each
character independently). -/
def pyLower (s : String) : String := ⟨s.data.map Char.toLower⟩

/-- Python `needle in hay` substring test on strings. -/
def substr_in (needle hay : String) : Bool := decide (needle.data <:+: hay.data)

/-- Python truthiness of a string: non-empty. -/
def truthy (s : String) : Bool := !s.data.isEmpty

/-- Python `s[:n]` for a non-negative `n`: the first `n` characters. -/
def pyTake (s : String) (n : Nat) : String := ⟨s.data.take n⟩

/-- Python `str.strip()` on a character list: drop whitespace from both
ends. -/
def stripChars (s : List Char) : List Char :=
  ((s.dropWhile Char.isWhitespace).reverse.dropWhile Char.isWhitespace).reverse

/-- Python `str.strip()` on a string. -/
def pyStrip (s : String) : String := ⟨stripChars s.data⟩

/- ## RelevanceFilter

Source, `run_reddit_agent` (lines 374-379):
`title = submission.title.lower()`, `selftext = submission.selftext.lower()`,
`any(keyword in title or keyword in selftext for keyword in keywords)`.
Note that the keyword itself is not lower-cased. -/

/-- The keyword-relevance filter exactly as the source computes it. -/
def is_relevant (title selftext : String) (keywords : List String) : Bool :=
  let t := pyLower title
  let s := pyLower selftext
  keywords.any (fun keyword => substr_in keyword t || substr_in keyword s)

/- ## ReplyLedger

Source: `load_replied_posts` (lines 136-160) reads the file line by line,
strips each line and keeps the non-blank ones as a set;
`save_replied_post` (lines 163-179) appends `submission_id + "\n"`.
The file content is modelled as a `List Char`. -/

/-- Split a character stream at newline characters, the way iterating a
Python text file (plus the subsequent `strip`) sees it. -/
def splitOnNl : List Char → List (List Char)
  | [] => [[]]
  | c :: rest =>
    if c = '\n' then [] :: splitOnNl rest
    else
      match splitOnNl rest with
      | [] => [[c]]
      | l :: ls => (c :: l) :: ls

/-- `load_replied_posts`: the stripped, non-blank lines of the ledger
file (the Python set is modelled by the list up to membership). -/
def load_replied_posts (content : List Char) : List (List Char) :=
  ((splitOnNl content).map stripChars).filter (fun l => !l.isEmpty)

/-- `save_replied_post`: append `submission_id + "\n"` to the file. -/
def save_replied_post (content : List Char) (submission_id : List Char) : List Char :=
  content ++ submission_id ++ ['\n']

/-- Record a whole collection of ids, one `save_replied_post` each. -/
def record_all (content : List Char) (ids : List (List Char)) : List Char :=
  ids.foldl save_replied_post content

/- ## ProxyRotator

Source: the global `proxy_cycle` is `itertools.cycle(available_proxies)`
when the loaded pool is non-empty (lines 436-442) and stays `None`
otherwise; `get_next_proxy` (lines 112-133) returns `next(proxy_cycle)`
when the cycle object exists and `None` otherwise.  The cycle object is
modelled by the pool list plus a call counter. -/

/-- Pool initialisation from `__main__`: the cycle exists only when the
loaded pool is non-empty. -/
def init_proxy_cycle (available_proxies : List String) : Option (List String) :=
  if available_proxies.isEmpty then none else some available_proxies

/-- `get_next_proxy`, as a function of the cycle and of how many calls
came before: the `idx`-th call to `next` on `itertools.cycle(pool)`
yields `pool[idx % len(pool)]`. -/
def get_next_proxy (cycle : Option (List String)) (idx : Nat) : Option String :=
  match cycle with
  | none => none
  | some pool => pool.get? (idx % pool.length)

/- ## ResponseGenerator

Source: `get_random_response` (lines 182-195) and
`generate_agent_response` (lines 280-334). -/

/-- `get_random_response`: a drawn phrase, or the fixed fallback literal
when the list is empty.  `random.choice` is modelled by the index
`pick % len(phrases)`. -/
def get_random_response (phrases : List String) (pick : Nat) : String :=
  match phrases with
  | [] => "Hello there!"
  | p :: ps => (p :: ps).getD (pick % (p :: ps).length) p

/-- Result of `generate_agent_response`: the text, plus whether the LLM
call (`generate_llm_response`) was reached. -/
structure GenResult where
  text : String
  llmCalled : Bool
deriving DecidableEq

/-- First phase of the LLM branch of `generate_agent_response` (lines
306-310): `llm_input_text` starts as the prompt and is extended with
fetched web context when a truthy url is set and the fetch yields truthy
text. -/
def build_llm_input (llm_prompt_pre : String) (url : Option String)
    (proxy : Option String)
    (gwc : String → Option String → Option String) : String :=
  match url with
  | some u =>
    if truthy u then
      match gwc u proxy with
      | some web_text =>
        if truthy web_text then
          llm_prompt_pre ++ "\n\nHere is some context from a webpage: " ++
            pyStrip (pyTake web_text 1000) ++ "...\n\n"
        else llm_prompt_pre
      | none => llm_prompt_pre
    else llm_prompt_pre
  | none => llm_prompt_pre

/-- `generate_agent_response`.  `gwc` is the `get_web_content`
collaborator (url, proxy to extracted text, `none` on any failure) and
`llm` is `generate_llm_response` (`none` on missing key or any failure);
`pick` models the `random.choice` draw.  Python truthiness tests on
strings (`if url:`, `if web_text:`, `if llm_input_text:`,
`if llm_response:`) are `truthy`. -/
def generate_agent_response (response_phrases : List String) (url : Option String)
    (snippet_length : Nat) (proxy : Option String) (use_llm : Bool)
    (llm_prompt_pre : String) (pick : Nat)
    (gwc : String → Option String → Option String)
    (llm : String → Option String) : GenResult :=
  if use_llm then
    if truthy (build_llm_input llm_prompt_pre url proxy gwc) then
      match llm (build_llm_input llm_prompt_pre url proxy gwc) with
      | some llm_response =>
        if truthy llm_response then ⟨llm_response, true⟩
        else ⟨get_random_response response_phrases pick, true⟩
      | none => ⟨get_random_response response_phrases pick, true⟩
    else ⟨get_random_response response_phrases pick, false⟩
  else
    let base_response := get_random_response response_phrases pick
    match url with
    | some u =>
      if truthy u then
        match gwc u proxy with
        | some web_text =>
          if truthy web_text then
            let snippet :=
              if web_text.data.length > snippet_length then
                pyStrip (pyTake web_text snippet_length) ++ "..."
              else pyStrip web_text
            ⟨base_response ++ "\n\nHere\x27s something I found: \"" ++ snippet ++
              "\"\n\n(Source: " ++ u ++ ")", false⟩
          else ⟨base_response, false⟩
        | none => ⟨base_response, false⟩
      else ⟨base_response, false⟩
    | none => ⟨base_response, false⟩

/- ## AgentLoop

Source: `run_reddit_agent` (lines 337-427).  A post carries, besides its
Reddit fields, the environment's behaviour at that post: whether
`submission.reply` succeeds and whether the ledger append inside
`save_replied_post` reaches the disk (that function swallows its own
errors, so the loop never sees them).  A forum either yields its newest
posts or raises while being scanned.  The run emits a trace of
observable events. -/

/-- A scanned Reddit submission together with the environment's
behaviour at it. -/
structure Post where
  id : String
  title : String
  selftext : String
  replySucceeds : Bool
  saveSucceeds : Bool
deriving DecidableEq

/-- Observable events of one agent cycle, in program order. -/
inductive Event where
  | replyAttempt (id : String)
  | replySuccess (id : String)
  | replyError (id : String)
  | memAdd (id : String)
  | ledgerAppend (id : String) (ok : Bool)
  | sleepCooldown
  | sleepInterForum
  | skipPost (id : String)
  | forumError (name : String)
  | proxySwitch (p : String)
  | agentStop
deriving DecidableEq

/-- Mutable state of one `run_reddit_agent` call: the in-memory replied
set, the ledger file lines that actually reached disk, the proxy cycle
with its call counter, and the `current_proxy` local. -/
structure LoopState where
  repliedSet : List String
  ledgerFile : List String
  proxyCycle : Option (List String)
  proxyIdx : Nat
  currentProxy : Option String
deriving DecidableEq

/-- One `current_proxy = get_next_proxy()` call: consumes the cycle
iterator when it exists. -/
def stepProxy (st : LoopState) : Option String × LoopState :=
  match st.proxyCycle with
  | none => (none, { st with currentProxy := none })
  | some pool =>
    let p := pool.get? (st.proxyIdx % pool.length)
    (p, { st with proxyIdx := st.proxyIdx + 1, currentProxy := p })

/-- The body of the `for submission in subreddit.new(limit=15)` loop for
one submission: relevance filter, dedup check, reply attempt with its
per-post try/except, in-memory record, durable record, cooldown sleep. -/
def processPost (keywords : List String) (st : LoopState) (p : Post) :
    LoopState × List Event :=
  if is_relevant p.title p.selftext keywords then
    if p.id ∈ st.repliedSet then
      (st, [Event.skipPost p.id])
    else
      if p.replySucceeds then
        ({ st with
            repliedSet := st.repliedSet ++ [p.id],
            ledgerFile := if p.saveSucceeds then st.ledgerFile ++ [p.id] else st.ledgerFile },
         [Event.replyAttempt p.id, Event.replySuccess p.id, Event.memAdd p.id,
          Event.ledgerAppend p.id p.saveSucceeds, Event.sleepCooldown])
      else
        (st, [Event.replyAttempt p.id, Event.replyError p.id, Event.sleepCooldown])
  else (st, [])

/-- All submissions of one forum, in scan order. -/
def processPosts (keywords : List String) (st : LoopState) :
    List Post → LoopState × List Event
  | [] => (st, [])
  | p :: ps =>
    let r := processPost keywords st p
    let rest := processPosts keywords r.1 ps
    (rest.1, r.2 ++ rest.2)

/-- One configured forum: either its newest posts, or an exception while
scanning it (anything the outer per-forum `except` catches). -/
inductive ForumInput where
  | scanError (name : String)
  | posts (name : String) (ps : List Post)

/-- The `for subreddit_name in subreddits` loop: a clean forum is
processed and followed by the short inter-forum sleep; a scanning error
is caught per forum and triggers a proxy failover, which stops the whole
remaining cycle when it yields no proxy. -/
def runForums (keywords : List String) (st : LoopState) :
    List ForumInput → LoopState × List Event
  | [] => (st, [])
  | ForumInput.posts _name ps :: rest =>
    let r := processPosts keywords st ps
    let r' := runForums keywords r.1 rest
    (r'.1, r.2 ++ [Event.sleepInterForum] ++ r'.2)
  | ForumInput.scanError name :: rest =>
    let pr := stepProxy st
    match pr.1 with
    | none => (pr.2, [Event.forumError name, Event.agentStop])
    | some p =>
      let r' := runForums keywords pr.2 rest
      (r'.1, [Event.forumError name, Event.proxySwitch p] ++ r'.2)

/-- `run_reddit_agent`: one cycle — select the cycle's proxy once, then
walk the forums. -/
def run_reddit_agent (keywords : List String) (st0 : LoopState)
    (forums : List ForumInput) : LoopState × List Event :=
  runForums keywords (stepProxy st0).2 forums

/-- Recogniser for reply-attempt events (used to count invocations of
the forum client's reply primitive in a trace). -/
def isReplyAttempt : Event → Bool
  | Event.replyAttempt _ => true
  | _ => false

/-- A trace never re-attempts a reply to a post after some reply to it
already succeeded. -/
def NoRetryAfterSuccess (t : List Event) : Prop :=
  ∀ id t₁ t₂, t = t₁ ++ Event.replySuccess id :: t₂ →
    Event.replyAttempt id ∉ t₂

/- ## Generic helper lemmas -/

/-- A truthy string is non-empty. -/
theorem truthy_ne_empty {s : String} (h : truthy s = true) : s ≠ "" := by
  intro he
  rw [he] at h
  exact absurd h (by decide)

/-- Appending anything to a non-empty string stays non-empty. -/
theorem str_append_ne_empty (s t : String) (h : s ≠ "") : s ++ t ≠ "" := by
  intro he
  apply h
  apply String.ext
  have hd : s.data ++ t.data = [] := by
    have hc := congrArg String.data he
    rwa [String.data_append] at hc
  exact (List.append_eq_nil.mp hd).1

/-- `get_random_response` yields either a member of the phrase list or the
fixed fallback literal. -/
theorem get_random_response_mem_or_default (phrases : List String) (pick : Nat) :
    get_random_response phrases pick ∈ phrases ∨
      get_random_response phrases pick = "Hello there!" := by
  cases phrases with
  | nil => exact Or.inr rfl
  | cons p ps =>
    left
    have hlt : pick % (p :: ps).length < (p :: ps).length :=
      Nat.mod_lt _ (by simp)
    show (p :: ps).getD (pick % (p :: ps).length) p ∈ p :: ps
    rw [List.getD_eq_getElem?_getD, List.getElem?_eq_getElem hlt]
    exact List.getElem_mem hlt

/-- When every phrase is non-empty, `get_random_response` is non-empty. -/
theorem get_random_response_ne_empty (phrases : List String) (pick : Nat)
    (hp : ∀ ph ∈ phrases, ph ≠ "") : get_random_response phrases pick ≠ "" := by
  rcases get_random_response_mem_or_default phrases pick with hm | hd
  · exact hp _ hm
  · rw [hd]; decide

/- ## C1 — RelevanceFilter -/

/-- C1 (counterexample): the claim says matching is insensitive to the
case of the keyword itself; but the keyword `"Playhouse AI"` — a
case-insensitive substring of the title `"Playhouse AI"`, as the second
conjunct records — is not matched, because the source lower-cases only
the post text and compares the keyword verbatim. -/
theorem C1_counterexample :
    is_relevant "Playhouse AI" "" ["Playhouse AI"] = false ∧
      substr_in (pyLower "Playhouse AI") (pyLower "Playhouse AI") = true := by
  decide

/-- C1 (amended): the relevance filter returns true iff at least one
keyword is, verbatim, a substring of the lower-cased title or of the
lower-cased body — case-insensitive in the post text only, with the
keyword compared case-sensitively. -/
theorem C1_relevance_iff (title selftext : String) (keywords : List String) :
    is_relevant title selftext keywords = true ↔
      ∃ k ∈ keywords,
        k.data <:+: (pyLower title).data ∨ k.data <:+: (pyLower selftext).data := by
  simp [is_relevant, substr_in, List.any_eq_true, Bool.or_eq_true, decide_eq_true_iff]

/- ## C5 — ProxyRotator -/

/-- C5: over a non-empty pool of size K, the i-th call to `next` yields
the pool entry at index `i % K` (original order, wrapping forever), any
K consecutive calls yield each pool element exactly once, and an empty
or never-initialised pool yields `none` on every call. -/
theorem C5_proxy_rotation (proxies : List String) (i : Nat) (h : proxies ≠ []) :
    (get_next_proxy (init_proxy_cycle proxies) i = proxies.get? (i % proxies.length) ∧
      (proxies.get? (i % proxies.length)).isSome = true) ∧
    ((List.range proxies.length).map
        (fun j => get_next_proxy (init_proxy_cycle proxies) (i + j))).Perm
      (proxies.map some) ∧
    (∀ j, get_next_proxy (init_proxy_cycle []) j = none) ∧
    (∀ j, get_next_proxy (none : Option (List String)) j = none) := by
  have hK : 0 < proxies.length := List.length_pos.mpr h
  have hinit : init_proxy_cycle proxies = some proxies := by
    unfold init_proxy_cycle
    rw [if_neg]
    exact fun hc => h (List.isEmpty_iff.mp hc)
  refine ⟨⟨by rw [hinit]; rfl, ?_⟩, ?_, fun j => rfl, fun j => rfl⟩
  · rw [List.get?_eq_getElem?, List.getElem?_eq_getElem (Nat.mod_lt _ hK)]
    rfl
  · have hmapeq :
        (List.range proxies.length).map
            (fun j => get_next_proxy (init_proxy_cycle proxies) (i + j)) =
          (proxies.rotate i).map some := by
      apply List.ext_getElem
      · simp
      · intro n h1 h2
        simp only [List.getElem_map, List.getElem_range, hinit, get_next_proxy]
        rw [List.getElem_rotate]
        rw [List.get?_eq_getElem?, List.getElem?_eq_getElem (Nat.mod_lt _ hK)]
        rw [Nat.add_comm i n]
    rw [hmapeq]
    exact (proxies.rotate_perm i).map some

/-- C5 (witness): with pool `["p1", "p2"]`, the fourth call wraps around
to `"p2"`. -/
theorem C5_witness :
    (["p1", "p2"] : List String) ≠ [] ∧
      get_next_proxy (init_proxy_cycle ["p1", "p2"]) 3 = some "p2" := by
  refine ⟨by decide, ?_⟩
  rw [(C5_proxy_rotation ["p1", "p2"] 3 (by decide)).1.1]
  decide

/-- When no web context is obtained — no url, or the fetch fails — the
built LLM input is just the prompt source. -/
theorem build_llm_input_no_context (ppre : String) (url : Option String)
    (proxy : Option String) (gwc : String → Option String → Option String)
    (h : url = none ∨ ∀ u, url = some u → gwc u proxy = none) :
    build_llm_input ppre url proxy gwc = ppre := by
  rcases h with hn | hf
  · subst hn; rfl
  · cases url with
    | none => rfl
    | some u => simp [build_llm_input, hf u rfl]

/- ## C6 — ResponseGenerator totality -/

/-- C6 (counterexample): with a phrase list containing the empty string
(an input combination the claim quantifies over), template-only mode can
return empty text. -/
theorem C6_counterexample :
    (generate_agent_response [""] none 200 none false "" 0
        (fun _ _ => none) (fun _ => none)).text = "" := by
  decide

/-- C6 (amended): the generator is total — it is a pure function of its
inputs and oracles, so it never raises — and it returns non-empty text
for every input combination in which every phrase of the list is
non-empty (which the phrase loader guarantees, since it drops blank
lines); in template-only mode with an empty phrase list it returns the
fixed fallback literal `"Hello there!"`. -/
theorem C6_generator_total (phrases : List String) (url : Option String)
    (snippet_length : Nat) (proxy : Option String) (use_llm : Bool)
    (ppre : String) (pick : Nat)
    (gwc : String → Option String → Option String) (llm : String → Option String)
    (hp : ∀ ph ∈ phrases, ph ≠ "") :
    (generate_agent_response phrases url snippet_length proxy use_llm ppre pick
        gwc llm).text ≠ "" ∧
    (generate_agent_response [] none snippet_length proxy false ppre pick
        gwc llm).text = "Hello there!" := by
  constructor
  · have hrand := get_random_response_ne_empty phrases pick hp
    unfold generate_agent_response
    cases use_llm with
    | true =>
      rw [if_pos rfl]
      generalize build_llm_input ppre url proxy gwc = T
      cases hT : truthy T with
      | false => simpa [hT] using hrand
      | true =>
        cases hl : llm T with
        | none => simpa [hT, hl] using hrand
        | some r =>
          cases hr : truthy r with
          | false => simpa [hT, hl, hr] using hrand
          | true => simpa [hT, hl, hr] using truthy_ne_empty hr
    | false =>
      rcases url with _ | u
      · simpa using hrand
      · cases hu : truthy u with
        | false => simpa [hu] using hrand
        | true =>
          cases hw : gwc u proxy with
          | none => simpa [hu, hw] using hrand
          | some w =>
            cases hwt : truthy w with
            | false => simpa [hu, hw, hwt] using hrand
            | true =>
              simp only [hu, hw, hwt, eq_self_iff_true, if_true,
                Bool.false_eq_true, if_false]
              intro he
              exact str_append_ne_empty _ _
                (str_append_ne_empty _ _
                  (str_append_ne_empty _ _
                    (str_append_ne_empty _ _ (str_append_ne_empty _ _ hrand)))) he
  · rfl

/-- C6 (witness): a concrete all-non-empty phrase list gives non-empty
output, and the empty list gives the fallback literal. -/
theorem C6_witness :
    (generate_agent_response ["Hi!"] none 200 none false "" 0
        (fun _ _ => none) (fun _ => none)).text ≠ "" ∧
    (generate_agent_response [] none 200 none false "" 0
        (fun _ _ => none) (fun _ => none)).text = "Hello there!" :=
  C6_generator_total ["Hi!"] none 200 none false "" 0
    (fun _ _ => none) (fun _ => none) (by decide)

/- ## C7 — fetch failure degrades to the template-only response -/

/-- C7: in template mode with a URL supplied, when the content fetch
fails (`get_web_content` returns `none`), the result equals exactly what
template-only mode (no URL) returns for the same phrase-selection draw,
whatever that mode's fetch oracle would have been. -/
theorem C7_fetch_failure_template_equal (phrases : List String) (u : String)
    (snippet_length : Nat) (proxy : Option String) (ppre : String) (pick : Nat)
    (gwc gwc2 : String → Option String → Option String)
    (llm : String → Option String)
    (hfail : gwc u proxy = none) :
    generate_agent_response phrases (some u) snippet_length proxy false ppre pick
        gwc llm =
      generate_agent_response phrases none snippet_length proxy false ppre pick
        gwc2 llm := by
  unfold generate_agent_response
  cases hu : truthy u <;> simp [hu, hfail]

/-- C7 (witness): concrete instance with a failing fetch. -/
theorem C7_witness :
    generate_agent_response ["Yo"] (some "http://x") 200 none false "pp" 0
        (fun _ _ => none) (fun _ => none) =
      generate_agent_response ["Yo"] none 200 none false "pp" 0
        (fun _ _ => some "PAGE") (fun _ => none) :=
  C7_fetch_failure_template_equal ["Yo"] "http://x" 200 none "pp" 0
    (fun _ _ => none) (fun _ _ => some "PAGE") (fun _ => none) rfl

/- ## C10 — LLM mode with empty prompt and no context skips the LLM -/

/-- C10: in LLM mode with the empty string as the prompt source, if no
web context is obtained — no URL given, or the fetch fails — the LLM
collaborator is never reached (`llmCalled = false`) and the result is
the template-only phrase selection. -/
theorem C10_llm_skipped_on_empty_prompt (phrases : List String)
    (snippet_length : Nat) (pick : Nat) (url : Option String)
    (proxy : Option String) (gwc : String → Option String → Option String)
    (llm : String → Option String)
    (h : url = none ∨ ∀ u, url = some u → gwc u proxy = none) :
    generate_agent_response phrases url snippet_length proxy true "" pick gwc llm =
      ⟨get_random_response phrases pick, false⟩ := by
  unfold generate_agent_response
  rw [if_pos rfl, build_llm_input_no_context "" url proxy gwc h]
  rfl

/-- C10 (witness): concrete instance — an eager LLM oracle is ignored
when the prompt source is empty and there is no URL. -/
theorem C10_witness :
    generate_agent_response ["Hey"] none 200 none true "" 0
        (fun _ _ => some "PAGE") (fun _ => some "LLM text") =
      ⟨"Hey", false⟩ := by
  rw [C10_llm_skipped_on_empty_prompt ["Hey"] 200 0 none none
      (fun _ _ => some "PAGE") (fun _ => some "LLM text") (Or.inl rfl)]
  decide

/- ## C4 — ReplyLedger round-trip -/

/-- `record_all` lays the ids down one after another, each terminated by
a newline. -/
theorem record_all_eq (content : List Char) (ids : List (List Char)) :
    record_all content ids =
      content ++ (ids.map (fun i => i ++ ['\n'])).flatten := by
  induction ids generalizing content with
  | nil => simp [record_all]
  | cons i ids ih =>
    show record_all (save_replied_post content i) ids = _
    rw [ih]
    simp [save_replied_post, List.append_assoc]

/-- Splitting starts at the first newline when the leading segment has
none. -/
theorem splitOnNl_append (id rest : List Char) (h : '\n' ∉ id) :
    splitOnNl (id ++ '\n' :: rest) = id :: splitOnNl rest := by
  induction id with
  | nil => simp [splitOnNl]
  | cons c cs ih =>
    have hc : c ≠ '\n' := by
      intro hh
      exact h (by rw [hh]; exact List.mem_cons_self _ _)
    have h' : '\n' ∉ cs := fun hh => h (List.mem_cons_of_mem _ hh)
    rw [List.cons_append, splitOnNl, if_neg hc, ih h']

/-- Splitting the encoded ledger recovers the ids plus the empty final
segment after the last newline. -/
theorem splitOnNl_encode (ids : List (List Char)) (h : ∀ id ∈ ids, '\n' ∉ id) :
    splitOnNl ((ids.map (fun i => i ++ ['\n'])).flatten) = ids ++ [[]] := by
  induction ids with
  | nil => simp [splitOnNl]
  | cons i ids ih =>
    simp only [List.map_cons, List.flatten_cons, List.append_assoc,
      List.singleton_append]
    rw [splitOnNl_append _ _ (h i (List.mem_cons_self _ _)),
      ih (fun x hx => h x (List.mem_cons_of_mem _ hx))]
    rfl

/-- Recording well-formed ids into an empty ledger file and loading it
back returns them exactly. -/
theorem load_record_all (ids : List (List Char))
    (hids : ∀ id ∈ ids, id ≠ [] ∧ '\n' ∉ id ∧ stripChars id = id) :
    load_replied_posts (record_all [] ids) = ids := by
  rw [record_all_eq]
  unfold load_replied_posts
  rw [List.nil_append, splitOnNl_encode ids (fun id hid => (hids id hid).2.1)]
  rw [List.map_append, List.filter_append]
  have h1 : ids.map stripChars = ids := by
    rw [List.map_congr_left (fun a ha => (hids a ha).2.2)]
    exact List.map_id ids
  rw [h1]
  have h2 : List.filter (fun l => !l.isEmpty) ids = ids := by
    rw [List.filter_eq_self]
    intro a ha
    simp [List.isEmpty_iff, (hids a ha).1]
  rw [h2]
  simp [stripChars]

/-- C4 (counterexample): the empty string is a collection of one
distinct identifier for which record-then-load loses the id — the blank
line it writes is discarded by the loader. -/
theorem C4_counterexample :
    ([([] : List Char)] : List (List Char)).Nodup ∧
      ([] : List Char) ∉ load_replied_posts (record_all [] [([] : List Char)]) := by
  decide

/-- C4 (amended): for every collection of distinct identifiers that are
non-empty, newline-free and whitespace-trimmed (which all real Reddit
ids are), recording each one and then performing a fresh load from the
same file yields a set containing exactly those N identifiers. -/
theorem C4_record_load_roundtrip (ids : List (List Char)) (hdist : ids.Nodup)
    (hids : ∀ id ∈ ids, id ≠ [] ∧ '\n' ∉ id ∧ stripChars id = id) :
    (load_replied_posts (record_all [] ids)).toFinset = ids.toFinset ∧
      (load_replied_posts (record_all [] ids)).toFinset.card = ids.length := by
  rw [load_record_all ids hids]
  exact ⟨rfl, List.toFinset_card_of_nodup hdist⟩

/-- C4 (witness): two concrete ids round-trip exactly. -/
theorem C4_witness :
    ([['a'], ['b']] : List (List Char)).Nodup ∧
      (load_replied_posts (record_all [] [['a'], ['b']])).toFinset =
        ([['a'], ['b']] : List (List Char)).toFinset ∧
      (load_replied_posts (record_all [] [['a'], ['b']])).toFinset.card = 2 := by
  refine ⟨by decide, ?_⟩
  have h := C4_record_load_roundtrip [['a'], ['b']] (by decide) (by decide)
  exact ⟨h.1, h.2⟩

/- ## C2 — order of the record step -/

/-- C2 (counterexample): one relevant post, reply succeeds, durable
append fails — after the run the id IS in the in-memory mirror while the
durable log is untouched, contradicting the claim that a failed append
leaves the in-memory set without the id. -/
theorem C2_counterexample :
    "abc" ∈ (run_reddit_agent ["lonely"] ⟨[], [], none, 0, none⟩
        [ForumInput.posts "social" [⟨"abc", "lonely", "", true, false⟩]]).1.repliedSet ∧
      (run_reddit_agent ["lonely"] ⟨[], [], none, 0, none⟩
        [ForumInput.posts "social" [⟨"abc", "lonely", "", true, false⟩]]).1.ledgerFile
        = [] := by
  decide

/-- C2 (amended): in the record step the identifier is added to the
in-memory set before the durable append is attempted; consequently, if
the durable append fails, the in-memory mirror still contains the
identifier and only the durable log is left unchanged. -/
theorem C2_memory_updated_first (keywords : List String) (st : LoopState) (p : Post)
    (hrel : is_relevant p.title p.selftext keywords = true)
    (hnew : p.id ∉ st.repliedSet)
    (hreply : p.replySucceeds = true)
    (hsave : p.saveSucceeds = false) :
    p.id ∈ (processPost keywords st p).1.repliedSet ∧
      (processPost keywords st p).1.ledgerFile = st.ledgerFile ∧
      ∃ t₁ t₂ t₃, (processPost keywords st p).2 =
        t₁ ++ Event.memAdd p.id ::
          (t₂ ++ Event.ledgerAppend p.id p.saveSucceeds :: t₃) := by
  refine ⟨?_, ?_, [Event.replyAttempt p.id, Event.replySuccess p.id], [],
    [Event.sleepCooldown], ?_⟩ <;>
    simp [processPost, hrel, hnew, hreply, hsave]

/-- C2 (witness): concrete instance of the amended ordering fact. -/
theorem C2_witness :
    "w1" ∈ (processPost ["lonely"] ⟨[], [], none, 0, none⟩
        ⟨"w1", "lonely", "", true, false⟩).1.repliedSet ∧
      (processPost ["lonely"] ⟨[], [], none, 0, none⟩
        ⟨"w1", "lonely", "", true, false⟩).1.ledgerFile = [] := by
  have h := C2_memory_updated_first ["lonely"] ⟨[], [], none, 0, none⟩
    ⟨"w1", "lonely", "", true, false⟩ (by decide) (by decide) rfl rfl
  exact ⟨h.1, h.2.1⟩

/- ## C3 — failure handling and proxy failover -/

/-- C3 (counterexample): a failed reply submission neither advances the
proxy rotation nor aborts the forum — the trace shows the reply error
followed by processing of the same forum's next post, with no
`proxySwitch` event anywhere, and the rotation counter still holds only
the cycle-start advance. -/
theorem C3_counterexample :
    (run_reddit_agent ["lonely"] ⟨[], [], some ["p1", "p2"], 0, none⟩
        [ForumInput.posts "social"
          [⟨"a1", "lonely", "", false, true⟩, ⟨"a2", "lonely", "", true, true⟩]]).2 =
      [Event.replyAttempt "a1", Event.replyError "a1", Event.sleepCooldown,
        Event.replyAttempt "a2", Event.replySuccess "a2", Event.memAdd "a2",
        Event.ledgerAppend "a2" true, Event.sleepCooldown, Event.sleepInterForum] ∧
      (run_reddit_agent ["lonely"] ⟨[], [], some ["p1", "p2"], 0, none⟩
        [ForumInput.posts "social"
          [⟨"a1", "lonely", "", false, true⟩, ⟨"a2", "lonely", "", true, true⟩]]).1.proxyIdx
        = 1 := by
  decide

/-- C3 (amended): an unexpected error in a forum-level scan operation
immediately advances the proxy rotation as a failover and aborts only
that forum — the remaining forums are still processed — unless the
rotation yields none, which stops the remaining cycle; a rejected or
failed reply submission, by contrast, is caught per post: it advances no
rotation, changes no state, and the forum's processing continues. -/
theorem C3_failover_policy (keywords : List String) (st : LoopState) (name : String)
    (rest : List ForumInput) (p : Post) (pool : List String) (pr : String)
    (hrel : is_relevant p.title p.selftext keywords = true)
    (hnew : p.id ∉ st.repliedSet)
    (hfail : p.replySucceeds = false) :
    ((st.proxyCycle = some pool → pool.get? (st.proxyIdx % pool.length) = some pr →
        (stepProxy st).2.proxyIdx = st.proxyIdx + 1 ∧
          runForums keywords st (ForumInput.scanError name :: rest) =
            ((runForums keywords (stepProxy st).2 rest).1,
              Event.forumError name :: Event.proxySwitch pr ::
                (runForums keywords (stepProxy st).2 rest).2)) ∧
      (st.proxyCycle = none →
        runForums keywords st (ForumInput.scanError name :: rest) =
          ((stepProxy st).2, [Event.forumError name, Event.agentStop]))) ∧
    ((processPost keywords st p).1 = st ∧
      (processPost keywords st p).2 =
        [Event.replyAttempt p.id, Event.replyError p.id, Event.sleepCooldown]) := by
  refine ⟨⟨?_, ?_⟩, ?_, ?_⟩
  · intro hcy hpr
    constructor
    · simp [stepProxy, hcy]
    · simp only [runForums, stepProxy, hcy, hpr]
      rfl
  · intro hcy
    simp only [runForums, stepProxy, hcy]
  · simp [processPost, hrel, hnew, hfail]
  · simp [processPost, hrel, hnew, hfail]

/-- C3 (witness): concrete scan error with one proxy available — the
failover advances the rotation and the (empty) remainder of the cycle is
still reached. -/
theorem C3_witness :
    runForums ["lonely"] ⟨[], [], some ["q"], 0, none⟩
        [ForumInput.scanError "social"] =
      (⟨[], [], some ["q"], 1, some "q"⟩,
        [Event.forumError "social", Event.proxySwitch "q"]) := by
  have h := ((C3_failover_policy ["lonely"] ⟨[], [], some ["q"], 0, none⟩ "social" []
      ⟨"x", "lonely", "", false, true⟩ ["q"] "q" (by decide) (by decide) rfl).1.1
      rfl (by decide)).2
  rw [h]
  decide

/- ## C8 — cooldown pacing -/

/-- Per post, the cooldown sleeps in the emitted events are exactly as
many as the reply attempts: one for each attempted reply — successful or
not — and none for skipped or irrelevant posts. -/
theorem processPost_pace (keywords : List String) (st : LoopState) (p : Post) :
    ((processPost keywords st p).2).count Event.sleepCooldown =
      ((processPost keywords st p).2).countP isReplyAttempt := by
  unfold processPost
  split
  · split
    · simp [isReplyAttempt, List.count_cons, List.countP_cons, beq_iff_eq]
    · split
      · simp [isReplyAttempt, List.count_cons, List.countP_cons, beq_iff_eq]
      · simp [isReplyAttempt, List.count_cons, List.countP_cons, beq_iff_eq]
  · simp

/-- Per forum, cooldown sleeps equal reply attempts. -/
theorem processPosts_pace (keywords : List String) (st : LoopState)
    (ps : List Post) :
    ((processPosts keywords st ps).2).count Event.sleepCooldown =
      ((processPosts keywords st ps).2).countP isReplyAttempt := by
  induction ps generalizing st with
  | nil => rfl
  | cons p ps ih =>
    simp only [processPosts, List.count_append, List.countP_append,
      processPost_pace, ih]

/-- Per cycle, cooldown sleeps equal reply attempts: neither the
inter-forum sleep nor the failover events contribute to either side. -/
theorem runForums_pace (keywords : List String) (st : LoopState)
    (forums : List ForumInput) :
    ((runForums keywords st forums).2).count Event.sleepCooldown =
      ((runForums keywords st forums).2).countP isReplyAttempt := by
  induction forums generalizing st with
  | nil => rfl
  | cons f rest ih =>
    cases f with
    | posts name ps =>
      simp only [runForums, List.count_append, List.countP_append,
        processPosts_pace, ih]
      simp [isReplyAttempt, List.count_cons, List.countP_cons, beq_iff_eq]
    | scanError name =>
      simp only [runForums]
      split
      · simp [isReplyAttempt, List.count_cons, List.countP_cons, beq_iff_eq]
      · simp only [List.cons_append, List.nil_append, List.count_cons,
          List.countP_cons, ih]
        simp [isReplyAttempt, beq_iff_eq]

/-- C8 (counterexample): pacing is not only per successful reply — a
failed reply submission is followed by the same fixed cooldown sleep, as
this concrete trace shows. -/
theorem C8_counterexample :
    (run_reddit_agent ["lonely"] ⟨[], [], none, 0, none⟩
        [ForumInput.posts "social" [⟨"b1", "lonely", "", false, true⟩]]).2 =
      [Event.replyAttempt "b1", Event.replyError "b1", Event.sleepCooldown,
        Event.sleepInterForum] := by
  decide

/-- C8 (amended): within a cycle the fixed cooldown sleep is performed
after every reply submission attempt — successful or failed — and only
after a reply attempt; pacing is per attempted reply, not per post
scanned. -/
theorem C8_pace_per_attempt (keywords : List String) (st0 : LoopState)
    (forums : List ForumInput) :
    ((run_reddit_agent keywords st0 forums).2).count Event.sleepCooldown =
      ((run_reddit_agent keywords st0 forums).2).countP isReplyAttempt :=
  runForums_pace keywords (stepProxy st0).2 forums

/- ## C9 — no second reply to a successfully answered post -/

/-- The empty trace retries nothing. -/
theorem noRetry_nil : NoRetryAfterSuccess [] := by
  intro id t₁ t₂ h
  exact absurd h (by simp)

/-- A trace without success events retries nothing. -/
theorem noRetry_of_no_success {a : List Event}
    (h : ∀ id, Event.replySuccess id ∉ a) : NoRetryAfterSuccess a := by
  intro id t₁ t₂ heq
  exfalso
  apply h id
  rw [heq]
  exact List.mem_append_right t₁ (List.mem_cons_self _ _)

/-- No-retry composes over concatenation when no id successful in the
first part is attempted in the second. -/
theorem noRetry_append {a b : List Event}
    (ha : NoRetryAfterSuccess a) (hb : NoRetryAfterSuccess b)
    (hcross : ∀ id, Event.replySuccess id ∈ a → Event.replyAttempt id ∉ b) :
    NoRetryAfterSuccess (a ++ b) := by
  intro id t₁ t₂ heq
  rcases List.append_eq_append_iff.mp heq with ⟨x, hx1, hx2⟩ | ⟨x, hx1, hx2⟩
  · exact hb id x t₂ hx2
  · cases x with
    | nil => exact hb id [] t₂ hx2.symm
    | cons e x =>
      rw [List.cons_append] at hx2
      injection hx2 with he ht
      subst he
      subst ht
      intro hmem
      rcases List.mem_append.mp hmem with hm | hm
      · exact ha id t₁ x hx1 hm
      · exact hcross id
          (by rw [hx1]; exact List.mem_append_right t₁ (List.mem_cons_self _ _)) hm

/-- One post step only grows the in-memory replied set. -/
theorem processPost_subset (keywords : List String) (st : LoopState) (p : Post) :
    ∀ x ∈ st.repliedSet, x ∈ (processPost keywords st p).1.repliedSet := by
  intro x hx
  unfold processPost
  split
  · split
    · exact hx
    · split
      · simp [hx]
      · exact hx
  · exact hx

/-- A success event in a post step puts the id into the step's resulting
in-memory set — independently of the `saveSucceeds` flag. -/
theorem processPost_success_mem (keywords : List String) (st : LoopState)
    (p : Post) (id : String) :
    Event.replySuccess id ∈ (processPost keywords st p).2 →
      id ∈ (processPost keywords st p).1.repliedSet := by
  unfold processPost
  split
  · split
    · intro h; simp at h
    · split
      · intro h
        simp only [List.mem_cons, List.not_mem_nil, or_false] at h
        rcases h with h | h | h | h | h <;> first
          | (injection h with h; simp [h])
          | exact absurd h (by simp)
      · intro h; simp at h
  · intro h; simp at h

/-- An id already in the in-memory set is never re-attempted by a post
step: the dedup check consults that set. -/
theorem processPost_attempt_blocked (keywords : List String) (st : LoopState)
    (p : Post) (id : String) (h : id ∈ st.repliedSet) :
    Event.replyAttempt id ∉ (processPost keywords st p).2 := by
  unfold processPost
  split
  · split
    · simp
    · rename_i hni
      have hne : id ≠ p.id := fun hid => hni (hid ▸ h)
      split
      · simp [hne]
      · simp [hne]
  · simp

/-- A single post step never re-attempts after its own success. -/
theorem processPost_noRetry (keywords : List String) (st : LoopState) (p : Post) :
    NoRetryAfterSuccess (processPost keywords st p).2 := by
  unfold processPost
  split
  · split
    · exact noRetry_of_no_success (by simp)
    · split
      · intro id t₁ t₂ heq
        rcases t₁ with _ | ⟨e1, _ | ⟨e2, _ | ⟨e3, _ | ⟨e4, _ | ⟨e5, t₁⟩⟩⟩⟩⟩ <;>
          simp_all
        rcases heq with ⟨h1, h2, h3⟩
        subst h2
        subst h3
        simp
      · exact noRetry_of_no_success (by simp)
  · exact noRetry_of_no_success (by simp)

/-- One forum's post loop only grows the in-memory replied set. -/
theorem processPosts_subset (keywords : List String) (st : LoopState)
    (ps : List Post) :
    ∀ x ∈ st.repliedSet, x ∈ (processPosts keywords st ps).1.repliedSet := by
  induction ps generalizing st with
  | nil => intro x hx; exact hx
  | cons p ps ih =>
    intro x hx
    exact ih _ x (processPost_subset keywords st p x hx)

/-- A success event inside one forum's post loop ends up in the
resulting in-memory set. -/
theorem processPosts_success_mem (keywords : List String) (st : LoopState)
    (ps : List Post) (id : String) :
    Event.replySuccess id ∈ (processPosts keywords st ps).2 →
      id ∈ (processPosts keywords st ps).1.repliedSet := by
  induction ps generalizing st with
  | nil => intro h; simp [processPosts] at h
  | cons p ps ih =>
    intro h
    rcases List.mem_append.mp h with hm | hm
    · exact processPosts_subset keywords _ ps id
        (processPost_success_mem keywords st p id hm)
    · exact ih _ hm

/-- An id already recorded in memory is never re-attempted inside a
forum's post loop. -/
theorem processPosts_attempt_blocked (keywords : List String) (st : LoopState)
    (ps : List Post) (id : String) (h : id ∈ st.repliedSet) :
    Event.replyAttempt id ∉ (processPosts keywords st ps).2 := by
  induction ps generalizing st with
  | nil => simp [processPosts]
  | cons p ps ih =>
    intro hc
    rcases List.mem_append.mp hc with hm | hm
    · exact processPost_attempt_blocked keywords st p id h hm
    · exact ih _ (processPost_subset keywords st p id h) hm

/-- One forum's post loop never re-attempts after a success. -/
theorem processPosts_noRetry (keywords : List String) (st : LoopState)
    (ps : List Post) : NoRetryAfterSuccess (processPosts keywords st ps).2 := by
  induction ps generalizing st with
  | nil => exact noRetry_nil
  | cons p ps ih =>
    exact noRetry_append (processPost_noRetry keywords st p) (ih _)
      (fun id hs => processPosts_attempt_blocked keywords _ ps id
        (processPost_success_mem keywords st p id hs))

/-- Consuming the proxy iterator does not touch the replied set. -/
theorem stepProxy_replied (st : LoopState) :
    (stepProxy st).2.repliedSet = st.repliedSet := by
  unfold stepProxy
  split <;> rfl

/-- The forum loop only grows the in-memory replied set. -/
theorem runForums_subset (keywords : List String) (st : LoopState)
    (forums : List ForumInput) :
    ∀ x ∈ st.repliedSet, x ∈ (runForums keywords st forums).1.repliedSet := by
  induction forums generalizing st with
  | nil => intro x hx; exact hx
  | cons f rest ih =>
    intro x hx
    cases f with
    | posts name ps =>
      exact ih _ x (processPosts_subset keywords st ps x hx)
    | scanError name =>
      simp only [runForums]
      split
      · rw [stepProxy_replied]; exact hx
      · exact ih _ x (by rw [stepProxy_replied]; exact hx)

/-- A success event anywhere in the cycle ends up in the final
in-memory set. -/
theorem runForums_success_mem (keywords : List String) (st : LoopState)
    (forums : List ForumInput) (id : String) :
    Event.replySuccess id ∈ (runForums keywords st forums).2 →
      id ∈ (runForums keywords st forums).1.repliedSet := by
  induction forums generalizing st with
  | nil => intro h; simp [runForums] at h
  | cons f rest ih =>
    cases f with
    | posts name ps =>
      intro h
      rcases List.mem_append.mp h with hm | hm
      · rcases List.mem_append.mp hm with hm2 | hm2
        · exact runForums_subset keywords _ rest id
            (processPosts_success_mem keywords st ps id hm2)
        · simp at hm2
      · exact ih _ hm
    | scanError name =>
      simp only [runForums]
      split
      · intro h; simp at h
      · intro h
        rcases List.mem_append.mp h with hm | hm
        · simp at hm
        · exact ih _ hm

/-- An id already recorded in memory is never re-attempted anywhere in
the rest of the cycle. -/
theorem runForums_attempt_blocked (keywords : List String) (st : LoopState)
    (forums : List ForumInput) (id : String) (h : id ∈ st.repliedSet) :
    Event.replyAttempt id ∉ (runForums keywords st forums).2 := by
  induction forums generalizing st with
  | nil => simp [runForums]
  | cons f rest ih =>
    cases f with
    | posts name ps =>
      intro hc
      rcases List.mem_append.mp hc with hm | hm
      · rcases List.mem_append.mp hm with hm2 | hm2
        · exact processPosts_attempt_blocked keywords st ps id h hm2
        · simp at hm2
      · exact ih _ (processPosts_subset keywords st ps id h) hm
    | scanError name =>
      simp only [runForums]
      split
      · simp
      · intro hc
        rcases List.mem_append.mp hc with hm | hm
        · simp at hm
        · exact ih _ (by rw [stepProxy_replied]; exact h) hm

/-- The whole forum loop never re-attempts after a success. -/
theorem runForums_noRetry (keywords : List String) (st : LoopState)
    (forums : List ForumInput) :
    NoRetryAfterSuccess (runForums keywords st forums).2 := by
  induction forums generalizing st with
  | nil => exact noRetry_nil
  | cons f rest ih =>
    cases f with
    | posts name ps =>
      have h1 : NoRetryAfterSuccess
          ((processPosts keywords st ps).2 ++ [Event.sleepInterForum]) :=
        noRetry_append (processPosts_noRetry keywords st ps)
          (noRetry_of_no_success (by simp)) (fun id hs => by simp)
      exact noRetry_append h1 (ih _) (fun id hs => by
        rcases List.mem_append.mp hs with hm | hm
        · exact runForums_attempt_blocked keywords _ rest id
            (processPosts_success_mem keywords st ps id hm)
        · simp at hm)
    | scanError name =>
      simp only [runForums]
      split
      · exact noRetry_of_no_success (by simp)
      · exact noRetry_append (noRetry_of_no_success (by simp)) (ih _)
          (fun id hs => by simp at hs)

/-- C9: once a reply to a post has been successfully submitted, the
post's id is in the in-memory replied set — whether or not the durable
ledger write succeeded — and, because the dedup check consults that set,
no later reply attempt for that id occurs anywhere in the rest of the
process's trace. -/
theorem C9_no_second_reply (keywords : List String) (st0 : LoopState)
    (forums : List ForumInput) :
    (∀ id, Event.replySuccess id ∈ (run_reddit_agent keywords st0 forums).2 →
        id ∈ (run_reddit_agent keywords st0 forums).1.repliedSet) ∧
      (∀ id t₁ t₂,
        (run_reddit_agent keywords st0 forums).2 =
            t₁ ++ Event.replySuccess id :: t₂ →
          Event.replyAttempt id ∉ t₂) :=
  ⟨fun id h => runForums_success_mem keywords (stepProxy st0).2 forums id h,
    fun id t₁ t₂ h => runForums_noRetry keywords (stepProxy st0).2 forums id t₁ t₂ h⟩

/-- C9 (witness): a successful reply whose ledger write failed is still
in the in-memory set at the end of the run. -/
theorem C9_witness :
    "zz1" ∈ (run_reddit_agent ["lonely"] ⟨[], [], none, 0, none⟩
        [ForumInput.posts "social" [⟨"zz1", "lonely", "", true, false⟩]]).1.repliedSet :=
  (C9_no_second_reply ["lonely"] ⟨[], [], none, 0, none⟩
      [ForumInput.posts "social" [⟨"zz1", "lonely", "", true, false⟩]]).1 "zz1"
    (by decide)
